import Mathlib

/-!
# Verification of the Flan virtual machine core

Shallow embedding of the Flan bytecode VM and its garbage collector, from
`src/src/vm.cpp`, `src/src/gc.cpp`, `src/include/vm.hpp`, `src/include/gc.hpp`.

Embedding conventions:

* `Value` mirrors `flan::Value`'s `std::variant<char, int64_t, double, bool,
  Object*>`: the `char` alternative is the Empty sentinel, `int64_t` is
  modelled by `ℤ` (the sources rely on no overflow behaviour that the verified
  claims touch; the spec leaves integer overflow unspecified), IEEE-754
  doubles are modelled by `ℚ` (every verified claim depends only on zero tests,
  comparisons and operand/promotion structure, never on rounding), and
  `Object*` is modelled by a heap index into an allocation list.
* Heap objects are immutable records in an append-only allocation list: the
  sources never run a collection (`GC::mayGC` is defined but never called) and
  no verified claim mutates an object in place, so object identity is the
  allocation index.
* C++ `typeid` applied to an expression of pointer type yields the
  `type_info` of the static pointer type, with no dynamic lookup.  Throughout
  the sources the tests read `typeid(obj) == typeid(Variant)` where `obj` has
  static type `Object*`; such a comparison is between `typeid(Object*)` and a
  class type and is never true.  The embedding makes this explicit through
  `TypeId` and `typeidObjPtr`.
* C++ functions that print a diagnostic and `std::exit(1)` (`VM::throwError`)
  are modelled as `Except` errors `Fatal.err`/`Fatal.errPlain`; undefined
  behaviour and uncaught C++ exceptions (e.g. `std::bad_variant_access` thrown
  by `std::get`, which no handler in the sources catches) are modelled as
  `Fatal.crash`.
* `VM::run`'s dispatch is embedded at instruction granularity: each `Instr`
  constructor carries the operands the corresponding `case` block of
  `VM::run` decodes, and the step function is the translation of that block's
  body.  The byte-level operand readers are embedded separately
  (`readUInt8`, `readUInt32`) where a claim concerns them.
-/

namespace Flan

/-- Result of a C++ `typeid` expression.  `pObject` is `typeid(e)` for an
expression `e` of static (pointer) type `Object*`; the `c…` constructors are
`typeid(C)` for the heap-object classes.  Pointer types and class types have
distinct `type_info`. -/
inductive TypeId where
  | pObject
  | cString
  | cAtom
  | cList
  | cTable
  | cTuple
  | cFunction
  | cClosure
deriving DecidableEq, Repr

/-- `typeid(obj)` as it appears throughout vm.cpp and gc.cpp: `obj` is a local
of static type `Object*`, so the operand has pointer type and the result is
the `type_info` of `Object*` (no dynamic type is consulted). -/
def typeidObjPtr : TypeId := TypeId.pObject

/-- `flan::Value` (gc.hpp:13-25): `std::variant<char, std::int64_t, double,
bool, Object*>`.  The `char` alternative (default constructed) is the Empty
sentinel; `Object*` is a heap index. -/
inductive Value where
  | empty
  | int (n : ℤ)
  | float (q : ℚ)
  | bool (b : Bool)
  | obj (id : ℕ)
deriving DecidableEq, Repr

/-- Terminal outcomes.  `err` is `VM::throwError(errInfoIdx, msg)`
(vm.cpp:1181-1198), `errPlain` is `VM::throwError(msg)` (vm.cpp:1200-1205);
both print and `std::exit(1)`.  `crash` is undefined behaviour or an uncaught
C++ exception (`std::terminate`). -/
inductive Fatal where
  | err (errInfoIdx : ℕ) (msg : String)
  | errPlain (msg : String)
  | crash (what : String)
deriving DecidableEq, Repr

/-- Heap object variants (gc.hpp:36-135), carrying the attributes the verified
claims read.  `fn` keeps the name and arity of a `Function`; its instruction
buffer is not consulted by any verified claim (`VM::callFunc` never reaches
its body, see `callFunc`). -/
inductive HObj where
  | str (s : String)
  | atom (s : String)
  | list (elements : List Value)
  | table (entries : List (String × Value))
  | tuple (values : List Value)
  | fn (name : String) (arity : ℕ)
deriving DecidableEq, Repr

/-- The VM heap: an append-only allocation list, `Value.obj i` referring to
entry `i`. -/
abbrev Heap := List HObj

/-- `std::holds_alternative<Object*>(v.value)`. -/
def Value.isObject : Value → Bool
  | .obj _ => true
  | _ => false

/-- `std::get<Object*>(v.value)` under a positive `holds_alternative` test. -/
def Value.objId : Value → ℕ
  | .obj i => i
  | _ => 0

/-- `Value::toString` (gc.cpp:200-272).  Empty prints `_`; integers and bools
via `std::to_string` (bool prints `1`/`0`).  For an `Object*` value every
branch tests `typeid(obj) == typeid(C)` with `obj : Object*`, i.e.
`typeidObjPtr = TypeId.cC`: all fail, and control falls through to the final
`return "::UNKNOWN VALUE::"`.  (Float formatting via `std::to_string(double)`
is not modelled bit-exactly; no verified claim renders a Float.) -/
def Value.toString : Value → String
  | .empty => "_"
  | .int n => ToString.toString n
  | .float q => ToString.toString q
  | .bool b => if b then "1" else "0"
  | .obj _ =>
    if typeidObjPtr = TypeId.cString then "::unreachable-string::"
    else if typeidObjPtr = TypeId.cAtom then "::unreachable-atom::"
    else if typeidObjPtr = TypeId.cList then "::unreachable-list::"
    else if typeidObjPtr = TypeId.cTable then "::unreachable-table::"
    else if typeidObjPtr = TypeId.cTuple then "::unreachable-tuple::"
    else if typeidObjPtr = TypeId.cFunction then "::unreachable-function::"
    else if typeidObjPtr = TypeId.cClosure then "::unreachable-closure::"
    else "::UNKNOWN VALUE::"

/-- `Value::toDbgString` (gc.cpp:274-311).  The guard on line 275 is
`if (!std::holds_alternative<Object*>(this->value))` — the test is inverted:
a NON-Object value enters the block whose first statement
`std::get<Object*>(this->value)` throws `std::bad_variant_access` (uncaught
in the sources), while an Object value skips the block and reaches
`return "'" + this->toString() + "'"`, where `toString` yields
`::UNKNOWN VALUE::` for every object (see `Value.toString`). -/
def Value.toDbgString : Value → Except Fatal String
  | .obj i => .ok ("'" ++ (Value.obj i).toString ++ "'")
  | _ => .error (.crash "bad_variant_access")

/-- `Stack::pop` (vm.cpp:1220-1224): `back()`/`pop_back()` on the value
vector; popping an empty vector is undefined behaviour.  The stack is listed
top first. -/
def pop1 : List Value → Except Fatal (Value × List Value)
  | [] => .error (.crash "pop on empty value stack")
  | v :: rest => .ok (v, rest)

/-- Shared tail of the comparison/equality handlers: build
`"Cannot compare " << left.toDbgString() << " and " << right.toDbgString()`
and raise `throwError(errInfoIdx, …)`.  Note the message construction itself
crashes when an operand is not an Object (see `Value.toDbgString`). -/
def cannotCompare (errInfoIdx : ℕ) (left right : Value) :
    Except Fatal (Value × List Value) := do
  let ld ← left.toDbgString
  let rd ← right.toDbgString
  .error (.err errInfoIdx ("Cannot compare " ++ ld ++ " and " ++ rd))

/-- `VM::performDiv` (vm.cpp:687-721): pop right, pop left; for numeric pairs
check the divisor against zero (`throwError(errInfoIdx, "Cannot divide by
zero")`) and otherwise return the quotient, `int64` division truncating toward
zero (`Int.tdiv`) and any Float operand promoting the result to Float.  A
non-numeric operand falls through to the "Cannot divide" diagnostic. -/
def performDiv (errInfoIdx : ℕ) (stack : List Value) :
    Except Fatal (Value × List Value) := do
  let (right, s1) ← pop1 stack
  let (left, s2) ← pop1 s1
  match left, right with
  | .int l, .int r =>
    if r = 0 then .error (.err errInfoIdx "Cannot divide by zero")
    else .ok (.int (Int.tdiv l r), s2)
  | .int l, .float r =>
    if r = 0 then .error (.err errInfoIdx "Cannot divide by zero")
    else .ok (.float ((l : ℚ) / r), s2)
  | .float l, .int r =>
    if r = 0 then .error (.err errInfoIdx "Cannot divide by zero")
    else .ok (.float (l / (r : ℚ)), s2)
  | .float l, .float r =>
    if r = 0 then .error (.err errInfoIdx "Cannot divide by zero")
    else .ok (.float (l / r), s2)
  | left, right => do
    let ld ← left.toDbgString
    let rd ← right.toDbgString
    .error (.err errInfoIdx ("Cannot divide " ++ ld ++ " by " ++ rd))

/-- `VM::performEq` (vm.cpp:760-819): pop right, pop left.  An Empty LEFT
operand returns `true` immediately (the `holds_alternative<char>(left.value)`
test on line 764), before the right operand is inspected.  Numeric pairs
compare with Int-to-Float promotion, Bool pairs compare directly.  The
String/String and Atom/Atom branches are guarded by
`typeid(leftObj) == typeid(String/Atom)` with `leftObj : Object*`
(`typeidObjPtr`), so they never fire and every Object left operand falls
through to the "Cannot compare" diagnostic. -/
def performEq (errInfoIdx : ℕ) (hp : Heap) (stack : List Value) :
    Except Fatal (Value × List Value) := do
  let (right, s1) ← pop1 stack
  let (left, s2) ← pop1 s1
  match left, right with
  | .empty, _ => .ok (.bool true, s2)
  | .int l, .int r => .ok (.bool (decide (l = r)), s2)
  | .int l, .float r => .ok (.bool (decide ((l : ℚ) = r)), s2)
  | .float l, .float r => .ok (.bool (decide (l = r)), s2)
  | .float l, .int r => .ok (.bool (decide (l = (r : ℚ))), s2)
  | .bool l, .bool r => .ok (.bool (l == r), s2)
  | .obj lid, right =>
    if typeidObjPtr = TypeId.cString then
      match right with
      | .obj rid =>
        if typeidObjPtr = TypeId.cString then
          match hp.get? lid, hp.get? rid with
          | some (.str ls), some (.str rs) => .ok (.bool (ls == rs), s2)
          | _, _ => .error (.crash "static_cast<String*> on a non-String")
        else cannotCompare errInfoIdx (.obj lid) right
      | _ => cannotCompare errInfoIdx (.obj lid) right
    else if typeidObjPtr = TypeId.cAtom then
      match right with
      | .obj rid =>
        if typeidObjPtr = TypeId.cAtom then
          match hp.get? lid, hp.get? rid with
          | some (.atom ls), some (.atom rs) => .ok (.bool (ls == rs), s2)
          | _, _ => .error (.crash "static_cast<Atom*> on a non-Atom")
        else cannotCompare errInfoIdx (.obj lid) right
      | _ => cannotCompare errInfoIdx (.obj lid) right
    else cannotCompare errInfoIdx (.obj lid) right
  | left, right => cannotCompare errInfoIdx left right

/-- `VM::performLTE` (vm.cpp:871-915): pop right, pop left; an Empty left
returns `true`; numeric pairs compare with `<=` under Int-to-Float promotion;
the String/String branch is guarded by `typeid(leftObj) == typeid(String)`
with `leftObj : Object*` (`typeidObjPtr`), so it never fires and every Object
left operand falls through to the "Cannot compare" diagnostic. -/
def performLTE (errInfoIdx : ℕ) (hp : Heap) (stack : List Value) :
    Except Fatal (Value × List Value) := do
  let (right, s1) ← pop1 stack
  let (left, s2) ← pop1 s1
  match left, right with
  | .empty, _ => .ok (.bool true, s2)
  | .int l, .int r => .ok (.bool (decide (l ≤ r)), s2)
  | .int l, .float r => .ok (.bool (decide ((l : ℚ) ≤ r)), s2)
  | .float l, .int r => .ok (.bool (decide (l ≤ (r : ℚ))), s2)
  | .float l, .float r => .ok (.bool (decide (l ≤ r)), s2)
  | .obj lid, right =>
    if typeidObjPtr = TypeId.cString then
      match right with
      | .obj rid =>
        if typeidObjPtr = TypeId.cString then
          match hp.get? lid, hp.get? rid with
          | some (.str ls), some (.str rs) =>
            .ok (.bool (decide (ls < rs) || ls == rs), s2)
          | _, _ => .error (.crash "static_cast<String*> on a non-String")
        else cannotCompare errInfoIdx (.obj lid) right
      | _ => cannotCompare errInfoIdx (.obj lid) right
    else cannotCompare errInfoIdx (.obj lid) right
  | left, right => cannotCompare errInfoIdx left right

/-- `VM::performGT` (vm.cpp:917-961): the strict-greater-than handler, shaped
like `performLTE` with `>` in place of `<=`.  NOTE: `VM::run`'s `GT` case
(vm.cpp:215-218) never calls this function — it dispatches to `performLTE`
(see `stepInstr`) — so `performGT` is dead code in the sources. -/
def performGT (errInfoIdx : ℕ) (hp : Heap) (stack : List Value) :
    Except Fatal (Value × List Value) := do
  let (right, s1) ← pop1 stack
  let (left, s2) ← pop1 s1
  match left, right with
  | .empty, _ => .ok (.bool true, s2)
  | .int l, .int r => .ok (.bool (decide (r < l)), s2)
  | .int l, .float r => .ok (.bool (decide (r < (l : ℚ))), s2)
  | .float l, .int r => .ok (.bool (decide ((r : ℚ) < l)), s2)
  | .float l, .float r => .ok (.bool (decide (r < l)), s2)
  | .obj lid, right =>
    if typeidObjPtr = TypeId.cString then
      match right with
      | .obj rid =>
        if typeidObjPtr = TypeId.cString then
          match hp.get? lid, hp.get? rid with
          | some (.str ls), some (.str rs) => .ok (.bool (decide (rs < ls)), s2)
          | _, _ => .error (.crash "static_cast<String*> on a non-String")
        else cannotCompare errInfoIdx (.obj lid) right
      | _ => cannotCompare errInfoIdx (.obj lid) right
    else cannotCompare errInfoIdx (.obj lid) right
  | left, right => cannotCompare errInfoIdx left right

/-- The decoded instructions whose `VM::run` case blocks the verified claims
exercise.  Each constructor carries the inline operands the corresponding
case decodes (error-info index as `ℕ`, the `IdxListOrTup` index operand as the
decoded `int64`). -/
inductive Instr where
  | load0
  | load1
  | load2
  | load3
  | load4
  | load5
  | lte (errInfoIdx : ℕ)
  | gt (errInfoIdx : ℕ)
  | eq (errInfoIdx : ℕ)
  | div (errInfoIdx : ℕ)
  | initList (n : ℕ)
  | idxListOrTup (errInfoIdx : ℕ) (idx : ℤ)
  | halt
deriving DecidableEq, Repr

/-- Interpreter state at instruction granularity: the value stack (top first)
and the allocation list. -/
structure VMState where
  stack : List Value
  heap : Heap
deriving DecidableEq, Repr

/-- A `GC::create…` allocation as observed by the interpreter (gc.cpp:84-140):
the new object is registered and an Object value for it returned.  The source
`create…` bodies perform NO collection check — `GC::mayGC` is never called —
so allocation never frees anything and is modelled by appending. -/
def allocObj (hp : Heap) (o : HObj) : Value × Heap :=
  (Value.obj hp.length, hp ++ [o])

/-- The `InitList` operand loop (vm.cpp:280-281):
`for (i < length) elements.push_back(this->pop());` — the elements are
accumulated in pop order (stack top first). -/
def popN : ℕ → List Value → Except Fatal (List Value × List Value)
  | 0, s => .ok ([], s)
  | n + 1, s => do
    let (v, s1) ← pop1 s
    let (vs, s2) ← popN n s1
    .ok (v :: vs, s2)

/-- `static_cast<std::uint64_t>(i)` on an `int64`. -/
def toUInt64 (i : ℤ) : ℕ := (i % (2 : ℤ) ^ 64).toNat

/-- `static_cast<std::int64_t>(n)` on a `uint64` (two's complement wrap, the
behaviour of every supported implementation). -/
def toInt64 (n : ℕ) : ℤ :=
  let m : ℕ := n % 2 ^ 64
  if m < 2 ^ 63 then (m : ℤ) else (m : ℤ) - 2 ^ 64

/-- `std::vector::at` (bounds-checked; `std::out_of_range` is uncaught). -/
def vectorAt (values : List Value) (i : ℕ) : Except Fatal Value :=
  match values.get? i with
  | some v => .ok v
  | none => .error (.crash "std::out_of_range from vector::at")

/-- Indexing tail of the `IdxListOrTup` case (vm.cpp:338-344), reached only
after a container was identified (which never happens, see `stepInstr`):
the range test casts `idx` to `uint64`, so every negative index is rejected
as out of range; the negative branch indexes at `values.size() - idx`. -/
def idxTail (errInfoIdx : ℕ) (idx : ℤ) (values : List Value) :
    Except Fatal Value :=
  if values.length ≤ toUInt64 idx then
    .error (.err errInfoIdx "Index out of range")
  else if idx < 0 ∧ 0 ≤ toInt64 (toUInt64 ((values.length : ℤ) - idx)) then
    vectorAt values (toUInt64 ((values.length : ℤ) - idx))
  else
    vectorAt values (toUInt64 idx)

/-- One `VM::run` case block (vm.cpp:81-539), at instruction granularity.

* `Load0`…`Load5` push the Integer constant (vm.cpp:90-118).
* `LTE` pushes `performLTE(readUInt16(...))` (vm.cpp:210-213).
* `GT` (vm.cpp:215-218) ALSO pushes `performLTE(readUInt16(...))`: the case
  dispatches to the less-or-equal handler, not to `performGT`.
* `Eq` pushes `performEq` (vm.cpp:195-198), `Div` pushes `performDiv`
  (vm.cpp:185-188).
* `InitList n` pops `n` values into the element vector in pop order and
  pushes `gc.createList(elements)` (vm.cpp:275-284).
* `IdxListOrTup` (vm.cpp:313-347) pops the container; a non-Object raises the
  expected-a-list diagnostic (whose construction crashes for non-Objects,
  see `Value.toDbgString`); for an Object the container tests
  `typeid(obj) == typeid(List)` / `typeid(Tuple)` compare `typeidObjPtr`
  against class types and never match, so every Object falls into the
  `throwError(errInfoIdx, "Expected a list or tuple but got …")` arm. -/
def stepInstr (i : Instr) (st : VMState) : Except Fatal VMState :=
  match i with
  | .load0 => .ok ⟨Value.int 0 :: st.stack, st.heap⟩
  | .load1 => .ok ⟨Value.int 1 :: st.stack, st.heap⟩
  | .load2 => .ok ⟨Value.int 2 :: st.stack, st.heap⟩
  | .load3 => .ok ⟨Value.int 3 :: st.stack, st.heap⟩
  | .load4 => .ok ⟨Value.int 4 :: st.stack, st.heap⟩
  | .load5 => .ok ⟨Value.int 5 :: st.stack, st.heap⟩
  | .lte errInfoIdx => do
    let (v, s) ← performLTE errInfoIdx st.heap st.stack
    .ok ⟨v :: s, st.heap⟩
  | .gt errInfoIdx => do
    let (v, s) ← performLTE errInfoIdx st.heap st.stack
    .ok ⟨v :: s, st.heap⟩
  | .eq errInfoIdx => do
    let (v, s) ← performEq errInfoIdx st.heap st.stack
    .ok ⟨v :: s, st.heap⟩
  | .div errInfoIdx => do
    let (v, s) ← performDiv errInfoIdx st.stack
    .ok ⟨v :: s, st.heap⟩
  | .initList n => do
    let (elements, rest) ← popN n st.stack
    let (v, hp) := allocObj st.heap (.list elements)
    .ok ⟨v :: rest, hp⟩
  | .idxListOrTup errInfoIdx idx => do
    let (value, s1) ← pop1 st.stack
    if !value.isObject then
      match value.toDbgString with
      | .error f => .error f
      | .ok d =>
        .error (.err errInfoIdx ("Expected a list or tuple but got " ++ d))
    else if typeidObjPtr = TypeId.cList then
      match st.heap.get? value.objId with
      | some (.list elements) =>
        (idxTail errInfoIdx idx elements).map fun v => ⟨v :: s1, st.heap⟩
      | _ => .error (.crash "static_cast<List*> on a non-List")
    else if typeidObjPtr = TypeId.cTuple then
      match st.heap.get? value.objId with
      | some (.tuple values) =>
        (idxTail errInfoIdx idx values).map fun v => ⟨v :: s1, st.heap⟩
      | _ => .error (.crash "static_cast<Tuple*> on a non-Tuple")
    else
      match value.toDbgString with
      | .error f => .error f
      | .ok d =>
        .error (.err errInfoIdx ("Expected a list or tuple but got " ++ d))
  | .halt => .ok st

/-- The fetch-decode-execute loop of `VM::run` over a straight-line
instruction sequence: `Halt` leaves the loop with the current state; running
off the end of the decoded program reads past the code region (undefined). -/
def execInstrs : List Instr → VMState → Except Fatal VMState
  | [], _ => .error (.crash "ran past the end of the code region")
  | .halt :: _, st => .ok st
  | i :: rest, st => do
    let st' ← stepInstr i st
    execInstrs rest st'

/-- `flan::CallFrame` (vm.hpp:25-30): return address within the code region
and the caller's frame base. -/
structure CallFrame where
  retAddr : ℕ
  prevFrom : ℕ
deriving DecidableEq, Repr

/-- `CALL_FRAMES_MAX` (vm.hpp:18).  In the sources it is used only to
pre-reserve the frame vector (vm.cpp:20); no code compares the frame count
against it. -/
def CALL_FRAMES_MAX : ℕ := 64

/-- `VM::callFunc` (vm.cpp:545-575).  Inputs are the pieces of VM state the
function reads: the heap, the current frame vector, the cursor (`bufferPtr`,
the return address recorded in a new frame), the current `stack.from`, the
stack length, and the source parameters `couldBeFunc`, `argCount`,
`errInfoIdx`.  On success it would return the grown frame vector and the new
`stack.from` (`Stack::setFrom`, vm.cpp:1234-1236).

Control flow of the source:
1. a non-`Object*` callee takes the first "is not callable" branch — whose
   message construction calls `toDbgString` on the callee and therefore
   crashes (see `Value.toDbgString`);
2. an `Object*` callee reaches `if (typeid(obj) != typeid(Function))` with
   `obj : Object*`: `typeidObjPtr ≠ TypeId.cFunction` always holds, so the
   second "is not callable" branch is always taken;
3. the arity check and the frame push are therefore dead code (translated
   below for completeness). -/
def callFunc (hp : Heap) (frames : List CallFrame) (pc : ℕ)
    (stackFrom : ℕ) (stackLen : ℕ) (couldBeFunc : Value) (argCount : ℕ)
    (errInfoIdx : ℕ) : Except Fatal (List CallFrame × ℕ) :=
  if !couldBeFunc.isObject then
    match couldBeFunc.toDbgString with
    | .error f => .error f
    | .ok d => .error (.err errInfoIdx (d ++ " is not callable"))
  else if typeidObjPtr ≠ TypeId.cFunction then
    match couldBeFunc.toDbgString with
    | .error f => .error f
    | .ok d => .error (.err errInfoIdx (d ++ " is not callable"))
  else
    match hp.get? couldBeFunc.objId with
    | some (.fn _ arity) =>
      if arity ≠ argCount then
        match couldBeFunc.toDbgString with
        | .error f => .error f
        | .ok d =>
          .error (.err errInfoIdx
            (d ++ " takes " ++ ToString.toString arity ++ " arguments but "
              ++ ToString.toString argCount ++ " was given"))
      else
        .ok (frames ++ [⟨pc, stackFrom⟩], stackLen - argCount - 1)
    | _ => .error (.crash "static_cast<Function*> on a non-Function")

/-- `VM::readUInt8` (vm.cpp:1034-1038).  The `bufferPtr` parameter is a
pointer passed BY VALUE, so the increment on vm.cpp:1036 mutates only the
callee's copy and the caller's cursor never advances.  The function therefore
just reads the byte at the caller's cursor.  (Byte buffers are modelled as
lists of byte values; reading past the end is out-of-bounds in C++ and is
modelled by 0 here, never exercised by the verified claims.) -/
def readUInt8 (buf : List ℕ) (pos : ℕ) : ℕ := buf.getD pos 0 % 256

/-- `VM::readUInt16` (vm.cpp:1040-1045): two `readUInt8` calls on the SAME
cursor (the pointer is passed by value, see `readUInt8`), combined with the
intended little-endian shift. -/
def readUInt16 (buf : List ℕ) (pos : ℕ) : ℕ :=
  let low_byte := readUInt8 buf pos
  let high_byte := readUInt8 buf pos
  (low_byte ||| (high_byte <<< 8)) % 2 ^ 16

/-- `VM::readUInt32` (vm.cpp:1047-1056): four `readUInt8` calls on the SAME
cursor (the pointer is passed by value, see `readUInt8`), and the four bytes
are combined with plain bitwise-or, WITHOUT the little-endian shifts
(vm.cpp:1052-1055). -/
def readUInt32 (buf : List ℕ) (pos : ℕ) : ℕ :=
  let byte1 := readUInt8 buf pos
  let byte2 := readUInt8 buf pos
  let byte3 := readUInt8 buf pos
  let byte4 := readUInt8 buf pos
  (byte1 ||| byte2 ||| byte3 ||| byte4) % 2 ^ 32

end Flan

namespace Flan.GC

/-!
## The generational collector (gc.cpp, gc.hpp)

The GC model tracks, for each heap object, exactly the attributes collection
behaviour depends on: the `marked` flag (gc.hpp:28), the accounted
`byteSize()` (a per-variant `sizeof` constant, implementation-defined), and
the outgoing `Object*` references that the variant's `mark` override recurses
into (gc.cpp:142-183; String/Atom/Function are leaves).  Objects are keyed by
an allocation id standing for the `new`-ed address.

The two sweep loops (gc.cpp:32-40, 46-53) mutate the `forward_list` they are
range-iterating (formally undefined in C++); the model iterates the snapshot
of the list taken at loop entry, the only consistent reading and the one the
specification describes.
-/

/-- One heap object as the collector sees it (gc.hpp:27-34 plus the variant
`mark` overrides): mark flag, accounted byte size, outgoing references. -/
structure GCObj where
  marked : Bool
  size : ℕ
  refs : List ℕ
deriving DecidableEq, Repr

/-- The set of live (not yet `delete`d) objects, keyed by id. -/
abbrev GCHeap := List (ℕ × GCObj)

/-- Look up a live object. -/
def hFind (h : GCHeap) (id : ℕ) : Option GCObj :=
  (h.find? fun p => p.1 == id).map fun p => p.2

/-- Update a live object in place (field mutation through a pointer). -/
def hSet (h : GCHeap) (id : ℕ) (o : GCObj) : GCHeap :=
  h.map fun p => if p.1 == id then (id, o) else p

/-- `delete obj`: the object ceases to exist. -/
def hErase (h : GCHeap) (id : ℕ) : GCHeap :=
  h.filter fun p => p.1 != id

/-- `obj->byteSize()` for a live object. -/
def sizeAt (h : GCHeap) (id : ℕ) : ℕ :=
  match hFind h id with
  | some o => o.size
  | none => 0

/-- `Object::mark` and its overrides (gc.cpp:12-15, 142-183): if already
marked, return; otherwise set the flag and recurse into every outgoing
`Object*` reference.  The recursion is bounded by a fuel argument; any fuel
at least the number of live objects computes the same marking as the
source's recursion, which terminates because each recursive step is guarded
by the idempotence test. -/
def markObj : ℕ → GCHeap → ℕ → GCHeap
  | 0, h, _ => h
  | fuel + 1, h, id =>
    match hFind h id with
    | none => h
    | some o =>
      if o.marked then h
      else o.refs.foldl (fun hh r => markObj fuel hh r)
        (hSet h id { o with marked := true })

/-- GC state (gc.hpp:137-158): the two generation lists (`forward_list`,
front first), their byte accounts, the root set (the pointer to the VM value
stack, gc.hpp:141), and the next allocation id. -/
structure GCState where
  heap : GCHeap
  stack : List Value
  nursery : List ℕ
  nurseryHeap : ℕ
  retirementHome : List ℕ
  retirementHomeHeap : ℕ
  nextId : ℕ
deriving DecidableEq, Repr

/-- `maxNurserySize` (gc.hpp:139): `2048 * 2048 * 2`. -/
def maxNurserySize : ℕ := 2048 * 2048 * 2

/-- `maxRetirementHomeSize` (gc.hpp:140): `2048 * 2048 * 16`. -/
def maxRetirementHomeSize : ℕ := 2048 * 2048 * 16

/-- The mark phase of `GC::GCNursery` (gc.cpp:26-29): for every value on the
stack holding an `Object*`, call `mark()` on it. -/
def markRoots (st : GCState) : GCHeap :=
  st.stack.foldl
    (fun h v =>
      match v with
      | .obj id => markObj h.length h id
      | _ => h)
    st.heap

/-- `GC::addToNursery` (gc.cpp:56-59): `push_front` onto the nursery and add
the object's bytes to the nursery account. -/
def addToNursery (st : GCState) (id : ℕ) (o : GCObj) : GCState :=
  { st with
    heap := (id, o) :: st.heap
    nursery := id :: st.nursery
    nurseryHeap := st.nurseryHeap + o.size }

/-- `GC::addToRetirementHome` (gc.cpp:61-64) for an already-live object. -/
def addToRetirementHome (st : GCState) (id : ℕ) : GCState :=
  { st with
    retirementHome := id :: st.retirementHome
    retirementHomeHeap := st.retirementHomeHeap + sizeAt st.heap id }

/-- `GC::removeFromNursery` (gc.cpp:66-69): `forward_list::remove` and
subtraction of the object's bytes from the nursery account. -/
def removeFromNursery (st : GCState) (id : ℕ) : GCState :=
  { st with
    nursery := st.nursery.filter fun x => x != id
    nurseryHeap := st.nurseryHeap - sizeAt st.heap id }

/-- `GC::removeFromRetirementHome` (gc.cpp:71-74). -/
def removeFromRetirementHome (st : GCState) (id : ℕ) : GCState :=
  { st with
    retirementHome := st.retirementHome.filter fun x => x != id
    retirementHomeHeap := st.retirementHomeHeap - sizeAt st.heap id }

/-- One iteration of the nursery sweep (gc.cpp:32-40): take the object off
the nursery, then destroy it if unmarked, otherwise clear its flag and move
it to the retirement home. -/
def sweepNurseryStep (st : GCState) (id : ℕ) : GCState :=
  let st1 := removeFromNursery st id
  match hFind st1.heap id with
  | none => st1
  | some o =>
    if !o.marked then { st1 with heap := hErase st1.heap id }
    else
      addToRetirementHome
        { st1 with heap := hSet st1.heap id { o with marked := false } } id

/-- `GC::GCNursery` (gc.cpp:25-41): mark from the value-stack roots, then
sweep the nursery snapshot. -/
def GCNursery (st : GCState) : GCState :=
  let st1 := { st with heap := markRoots st }
  st.nursery.foldl sweepNurseryStep st1

/-- One iteration of the retirement sweep (gc.cpp:46-53): an unmarked object
is taken off the list and destroyed; a marked one has its flag cleared. -/
def sweepRetirementStep (st : GCState) (id : ℕ) : GCState :=
  match hFind st.heap id with
  | none => st
  | some o =>
    if !o.marked then
      let st1 := removeFromRetirementHome st id
      { st1 with heap := hErase st1.heap id }
    else { st with heap := hSet st.heap id { o with marked := false } }

/-- `GC::GCRetirementHome` (gc.cpp:43-54).  The source comment on gc.cpp:44
reads "No need for marking": NO mark phase is re-run before this sweep, so
whatever `marked` flags the objects happen to carry decide their fate —
in particular objects just promoted by `GCNursery` arrive with their flag
cleared (gc.cpp:37). -/
def GCRetirementHome (st : GCState) : GCState :=
  st.retirementHome.foldl sweepRetirementStep st

/-- `GC::mayGC` (gc.cpp:17-23): the collection trigger.  Defined in the
sources but NEVER CALLED — no `create…` function (nor any other code)
invokes it. -/
def mayGC (st : GCState) : GCState :=
  if maxNurserySize ≤ st.nurseryHeap then
    let st1 := GCNursery st
    if maxRetirementHomeSize ≤ st1.retirementHomeHeap then
      GCRetirementHome st1
    else st1
  else st

/-- `sizeof(String)`: the per-variant accounted byte size is an
implementation-defined constant; its exact value is irrelevant to the
verified claims (the concrete scenarios fix the sizes they need). -/
def sizeofString : ℕ := 32

/-- `GC::createString` (gc.cpp:84-88): `new String(value)`, `addToNursery`,
return.  NOTE the body contains NO call to `mayGC` — no threshold check and
no collection happens on allocation.  (A `String` has no outgoing `Object*`
references; the payload does not influence collection.) -/
def createString (st : GCState) (value : String) : Value × GCState :=
  let _ := value
  (Value.obj st.nextId,
    { addToNursery st st.nextId
        { marked := false, size := sizeofString, refs := [] } with
      nextId := st.nextId + 1 })

/-- Concrete collection scenario for the retirement-sweep claim: object 0
(8 MiB, the nursery cap) sits in the nursery and is referenced from the value
stack; object 1 (64 MiB, the retirement cap) sits in the retirement home and
is unreachable.  Both accounts are exactly at their caps, so the next
`mayGC` runs a nursery collection followed by a retirement collection. -/
def c1State : GCState :=
  { heap := [(0, ⟨false, maxNurserySize, []⟩),
             (1, ⟨false, maxRetirementHomeSize, []⟩)]
    stack := [Value.obj 0]
    nursery := [0]
    nurseryHeap := maxNurserySize
    retirementHome := [1]
    retirementHomeHeap := maxRetirementHomeSize
    nextId := 2 }

/-- Concrete allocation scenario for the threshold-check claim: the nursery
account already equals the cap and holds one unreachable object (the stack is
empty), so by the specification the next `create…` call must trigger a
nursery collection destroying it. -/
def c3State : GCState :=
  { heap := [(0, ⟨false, maxNurserySize, []⟩)]
    stack := []
    nursery := [0]
    nurseryHeap := maxNurserySize
    retirementHome := []
    retirementHomeHeap := 0
    nextId := 1 }

/-- Payload for the allocation in the `c3State` scenario. -/
def xPayload : String := "x"

end Flan.GC

namespace Flan

/-- The concrete spec scenario `Load1, Load2, Load3, InitList N=3,
IdxListOrTup(err=0, idx=0), Halt`. -/
def c6Program : List Instr :=
  [.load1, .load2, .load3, .initList 3, .idxListOrTup 0 0, .halt]

/-- A Value is numeric (Integer or Float). -/
def Value.isNumeric : Value → Bool
  | .int _ => true
  | .float _ => true
  | _ => false

/-- A numeric Value equal to zero (Integer 0 or Float 0.0; IEEE `-0.0 == 0.0`
is true, matching the single rational zero). -/
def Value.isZeroNumeric : Value → Bool
  | .int n => n == 0
  | .float q => q == 0
  | _ => false

/-- The quotient `performDiv` produces on a numeric pair with a nonzero
divisor: Int/Int divides with truncation toward zero, any mix with Float
promotes to Float. -/
def divValue : Value → Value → Value
  | .int l, .int r => .int (Int.tdiv l r)
  | .int l, .float r => .float ((l : ℚ) / r)
  | .float l, .int r => .float (l / (r : ℚ))
  | .float l, .float r => .float (l / r)
  | _, _ => .empty

end Flan

namespace Flan

/-- Helper: binding a successful `Except` computation reduces to applying the
continuation. -/
theorem ok_bind {α β : Type} (a : α) (f : α → Except Fatal β) :
    (Except.ok a >>= f : Except Fatal β) = f a := rfl

/-- Helper: the `InitList` pop loop on a sufficiently deep stack yields the
top `n` values in pop order and leaves the rest. -/
theorem popN_take_drop :
    ∀ (n : ℕ) (s : List Value), n ≤ s.length →
      popN n s = .ok (s.take n, s.drop n) := by
  intro n
  induction n with
  | zero => intro s _; simp [popN]
  | succ k ih =>
    intro s h
    match s with
    | [] => simp at h
    | v :: rest =>
      have hk : k ≤ rest.length := by simpa using h
      simp [popN, pop1, ok_bind, ih rest hk]

/-- C8: for every pair of numeric operands popped by `Div` (right popped
first, then left), a zero right operand (Integer 0 or Float 0.0) raises the
fatal `"Cannot divide by zero"` diagnostic and nothing is pushed (the result
is a terminal error), and otherwise the quotient is returned for pushing,
Int/Int yielding Int (truncation toward zero) and any mix with Float
yielding Float. -/
theorem performDiv_checks_zero_then_divides :
    ∀ (errInfoIdx : ℕ) (l r : Value) (rest : List Value),
      l.isNumeric = true → r.isNumeric = true →
      performDiv errInfoIdx (r :: l :: rest) =
        if r.isZeroNumeric then
          .error (.err errInfoIdx "Cannot divide by zero")
        else .ok (divValue l r, rest) := by
  intro e l r rest hl hr
  cases l <;> cases r <;>
    (try simp only [Value.isNumeric, Bool.false_eq_true] at hl hr)
  case int.int a b =>
    by_cases h : b = 0 <;>
      simp [performDiv, pop1, ok_bind, Value.isZeroNumeric, divValue, h]
  case int.float a b =>
    by_cases h : b = 0 <;>
      simp [performDiv, pop1, ok_bind, Value.isZeroNumeric, divValue, h]
  case float.int a b =>
    by_cases h : b = 0 <;>
      simp [performDiv, pop1, ok_bind, Value.isZeroNumeric, divValue, h]
  case float.float a b =>
    by_cases h : b = 0 <;>
      simp [performDiv, pop1, ok_bind, Value.isZeroNumeric, divValue, h]

/-- Witness for `performDiv_checks_zero_then_divides` at Integer 4 divided by
Integer 2. -/
theorem performDiv_checks_zero_then_divides_witness :
    performDiv 0 [Value.int 2, Value.int 4] = .ok (Value.int 2, []) := by
  rw [performDiv_checks_zero_then_divides 0 (Value.int 4) (Value.int 2) []
    rfl rfl]
  rfl

end Flan

namespace Flan

/-- C2 (amended): `VM::callFunc` terminates fatally on EVERY callee and never
pushes a call frame or enters a function body.  For an Object callee
(including a `GC::createFunction` result with matching arity) the callable
test compares `typeid` of the `Object*` pointer against `typeid(Function)`,
which are never equal, so the fatal `"… is not callable"` diagnostic is
raised; for a non-Object callee the diagnostic's own message construction
calls `toDbgString`, whose inverted variant test throws an uncaught
`std::bad_variant_access` before `throwError` is reached. -/
theorem callFunc_always_fatal :
    ∀ (hp : Heap) (frames : List CallFrame) (pc stackFrom stackLen : ℕ)
      (v : Value) (argCount errInfoIdx : ℕ),
      callFunc hp frames pc stackFrom stackLen v argCount errInfoIdx =
        .error
          (match v with
            | .obj _ =>
              Fatal.err errInfoIdx "'::UNKNOWN VALUE::' is not callable"
            | _ => Fatal.crash "bad_variant_access") := by
  intro hp frames pc sf sl v argc e
  cases v <;> rfl

/-- C2 (counterexample): calling a non-Object Value — Integer 5 — does NOT
raise the fatal "is not callable" error the claim asserts for every Value:
the process aborts with an uncaught `std::bad_variant_access` thrown while
rendering the callee for the diagnostic (`Value::toDbgString` applies
`std::get<Object*>` under an inverted `holds_alternative` test). -/
theorem callFunc_int_callee_crashes_before_diagnostic :
    callFunc [] [] 0 0 0 (Value.int 5) 1 0 =
      .error (.crash "bad_variant_access") := rfl

/-- C4: the `GT` case of `VM::run` (vm.cpp:215-218) dispatches to
`performLTE`, so with left = Integer 2, right = Integer 2 it pushes Bool true
(2 ≤ 2) where strict greater-than mandates false; the correct handler
`performGT`, which is never called by the dispatch, returns false on the same
operands. -/
theorem gt_case_dispatches_to_performLTE :
    stepInstr (Instr.gt 0) ⟨[Value.int 2, Value.int 2], []⟩ =
      .ok ⟨[Value.bool true], []⟩ ∧
    performGT 0 [] [Value.int 2, Value.int 2] =
      .ok (Value.bool false, []) := ⟨rfl, rfl⟩

/-- C5: `VM::readUInt32` does not reconstruct a little-endian u32.  On the
buffer `[1, 2, 3, 4]` it returns 1 (every one of its four `readUInt8` calls
re-reads the first byte, because the cursor is passed by value, and the four
bytes are or-ed without shifts), and on `[0, 1, 0, 0]` it returns 0 where the
little-endian value is 256. -/
theorem readUInt32_ignores_high_bytes :
    readUInt32 [1, 2, 3, 4] 0 = 1 ∧ readUInt32 [0, 1, 0, 0] 0 = 0 :=
  ⟨rfl, rfl⟩

/-- C6 (counterexample): the spec scenario `Load1, Load2, Load3, InitList 3,
IdxListOrTup(err=0, idx=0), Halt` does not leave Integer 1 on top of the
stack: execution terminates fatally at `IdxListOrTup` with the
expected-a-list-or-tuple diagnostic, because the container test compares
`typeid` of the `Object*` pointer against `typeid(List)`/`typeid(Tuple)` and
never matches. -/
theorem scenario_load123_initList_idx_faults :
    execInstrs c6Program ⟨[], []⟩ =
      .error (.err 0 "Expected a list or tuple but got '::UNKNOWN VALUE::'") :=
  rfl

/-- C6 (amended): `InitList N` pops N values and produces a List whose
element order IS the pop order — the last-pushed value becomes element 0, the
first-pushed becomes the last element (no reversal happens) — and the spec
scenario terminates in the fatal expected-a-list-or-tuple error instead of
producing Integer 1. -/
theorem initList_pop_order_and_scenario_faults :
    (∀ (stk : List Value) (hp : Heap) (n : ℕ), n ≤ stk.length →
      stepInstr (Instr.initList n) ⟨stk, hp⟩ =
        .ok ⟨Value.obj hp.length :: stk.drop n,
             hp ++ [HObj.list (stk.take n)]⟩) ∧
    execInstrs c6Program ⟨[], []⟩ =
      .error (.err 0 "Expected a list or tuple but got '::UNKNOWN VALUE::'") := by
  constructor
  · intro stk hp n h
    simp [stepInstr, popN_take_drop n stk h, ok_bind, allocObj]
  · rfl

/-- Witness for `initList_pop_order_and_scenario_faults`: popping the stack
`[9, 8]` (9 on top) yields the List `[9, 8]` — element 0 is the last-pushed
value 9. -/
theorem initList_pop_order_witness :
    stepInstr (Instr.initList 2) ⟨[Value.int 9, Value.int 8], []⟩ =
      .ok ⟨[Value.obj 0], [HObj.list [Value.int 9, Value.int 8]]⟩ :=
  initList_pop_order_and_scenario_faults.1 [Value.int 9, Value.int 8] [] 2
    (by decide)

/-- C7: `IdxListOrTup` with Integer index 0 applied to a stack whose top
refers to a genuine one-element List does not push the element `Integer 10`
the claim requires for `0 ≤ i < n`: it raises the fatal
expected-a-list-or-tuple error, because the container test compares `typeid`
of the `Object*` pointer against the class types and never identifies a List
or Tuple. -/
theorem idxListOrTup_faults_on_genuine_list :
    stepInstr (Instr.idxListOrTup 0 0)
        ⟨[Value.obj 0], [HObj.list [Value.int 10]]⟩ =
      .error (.err 0 "Expected a list or tuple but got '::UNKNOWN VALUE::'") :=
  rfl

/-- C9 (counterexample): with the frame vector already holding
`CALL_FRAMES_MAX = 64` frames, a `CallFn` on a Function object of matching
arity does NOT raise a stack-overflow error as the claim asserts: `callFunc`
contains no frame-count check at all and raises the fatal
"is not callable" diagnostic (the pointer-`typeid` callable test) before any
frame logic. -/
theorem callFunc_full_frames_raises_not_callable_not_overflow :
    callFunc [HObj.fn "f" 0] (List.replicate 64 ⟨0, 0⟩) 0 0 1
        (Value.obj 0) 0 0 =
      .error (.err 0 "'::UNKNOWN VALUE::' is not callable") := rfl

/-- C9 (amended): no execution of `VM::callFunc` ever succeeds, so no
`CallFn` ever pushes a call frame: the live frame count never grows past its
initial value and in particular never exceeds `CALL_FRAMES_MAX = 64` — but
this bound is vacuous, not enforced: the sources contain no frame-count
check and no stack-overflow error path. -/
theorem callFunc_never_pushes_frames :
    (∀ (hp : Heap) (frames : List CallFrame) (pc stackFrom stackLen : ℕ)
      (v : Value) (argCount errInfoIdx : ℕ),
      (callFunc hp frames pc stackFrom stackLen v argCount errInfoIdx).isOk =
        false) ∧
    CALL_FRAMES_MAX = 64 := by
  refine ⟨?_, rfl⟩
  intro hp frames pc sf sl v argc e
  cases v <;> rfl

/-- C10 (counterexample): `Eq` with left = Integer 0 and right = Empty does
NOT push Bool true: only a LEFT Empty operand is tested
(`holds_alternative<char>(left.value)`), so this pairing falls into the
illegal-comparison arm, which aborts with an uncaught
`std::bad_variant_access` while rendering the non-Object left operand for
the diagnostic. -/
theorem performEq_right_empty_not_wildcard :
    performEq 0 [] [Value.empty, Value.int 0] =
      .error (.crash "bad_variant_access") := rfl

/-- C10 (amended): `Eq` pushes Bool true whenever the LEFT popped operand is
the Empty value, regardless of the right operand; an Empty appearing only on
the right is not a wildcard (see the counterexample). -/
theorem performEq_left_empty_wildcard :
    ∀ (errInfoIdx : ℕ) (hp : Heap) (right : Value) (rest : List Value),
      performEq errInfoIdx hp (right :: Value.empty :: rest) =
        .ok (Value.bool true, rest) := by
  intro e hp right rest
  rfl

end Flan

namespace Flan.GC

/-- C1: a full collection pass (`mayGC` with both accounts at their caps)
destroys a heap object that is reachable from the value stack.  Object 0 is
referenced by the stack and survives the nursery sweep — it is promoted to
the retirement home with its mark cleared (gc.cpp:37) — but
`GC::GCRetirementHome` runs NO mark phase ("No need for marking",
gc.cpp:44), finds the promoted object unmarked, and destroys it; the
unreachable object 1 is destroyed as well.  After the pass the root
`Value.obj 0` on the stack is dangling. -/
theorem retirementSweep_destroys_reachable_promoted_object :
    c1State.stack = [Value.obj 0] ∧
    hFind c1State.heap 0 = some ⟨false, maxNurserySize, []⟩ ∧
    hFind (mayGC c1State).heap 0 = none ∧
    hFind (mayGC c1State).heap 1 = none ∧
    (mayGC c1State).retirementHome = [] := ⟨rfl, rfl, rfl, rfl, rfl⟩

/-- C3: `GC::createString` invoked on a state whose nursery account already
equals the cap performs NO collection: the unreachable resident object 0 is
still alive afterwards and the nursery has simply grown — while the
(never-called) threshold check `GC::mayGC` applied to the same state would
have collected the nursery and destroyed object 0. -/
theorem createString_performs_no_threshold_check :
    (createString c3State xPayload).2.nursery = [1, 0] ∧
    hFind (createString c3State xPayload).2.heap 0 =
      some ⟨false, maxNurserySize, []⟩ ∧
    (createString c3State xPayload).2.nurseryHeap =
      maxNurserySize + sizeofString ∧
    hFind (mayGC c3State).heap 0 = none := ⟨rfl, rfl, rfl, rfl⟩

end Flan.GC
